import Mathlib

/-!
Shallow embedding of the C-cred backend (src/server.js, in-memory variant).

The server keeps six global arrays (projects, dataUploads,
verificationSubmissions, carbonCredits, stakeholders, marketplaceListings)
and mutates them from Express route handlers.  Each handler is embedded as a
pure function `Store → Request → Env → Store × Except ErrResp Data`, where
`Env` supplies the environment values the handler reads (the random uuid
suffix, `Date.now()`, `getFullYear().toString()`).  JavaScript request-body
fields that may be absent are `Option`s; JS truthiness on strings
(absent/empty falsy) and numbers (absent/zero falsy) is modelled explicitly.
Numbers are embedded as `ℚ`; ISO timestamp strings are abstracted to the
`Nat` clock value they are derived from; the opaque `metadata` JSON payload
of an upload is carried as a `String` (the handlers only copy it around).
The `files` array of an upload and the side-effect-free read-only endpoints
that no claim touches are not modelled.
-/

namespace CCred

/-- A project record as pushed by `POST /projects` (server.js:61-72).
`location` is an opaque payload: the handlers only test its truthiness and
read `category` of joins. -/
structure Project where
  id : String
  name : String
  category : String
  location : String
  startDate : Option String
  endDate : Option String
  stakeholders : List String
  status : String
  createdAt : Nat
  updatedAt : Nat
deriving DecidableEq

/-- A data-upload record as pushed by `POST /data/upload` (server.js:155-170);
the `files` array is omitted (no modelled operation reads it). -/
structure DataUpload where
  id : String
  projectId : String
  dataType : String
  metadata : String
  status : String
  createdAt : Nat
deriving DecidableEq

/-- A verification-submission record: created by `POST /data/uploads/:id/verify`
(server.js:237-245); the approve/reject/request-more handlers later spread
extra fields onto it, modelled as `Option`s that are `none` at creation. -/
structure VerificationSubmission where
  id : String
  uploadId : String
  projectId : String
  status : String
  submittedAt : Nat
  dataType : String
  metadata : String
  creditsGenerated : Option ℚ
  comments : Option String
  qualityScore : Option ℚ
  approvedAt : Option Nat
  reason : Option String
  requiredActions : List String
  rejectedAt : Option Nat
  requestedData : List String
  requestedAt : Option Nat
deriving DecidableEq

/-- A carbon-credit record as pushed by `POST /credits/generate`
(server.js:467-478). -/
structure CarbonCredit where
  id : String
  projectId : String
  verificationId : String
  creditsAmount : ℚ
  methodology : String
  vintage : String
  description : Option String
  status : String
  createdAt : Nat
  serialNumber : String
deriving DecidableEq

/-- A stakeholder record as pushed by `POST /stakeholders` (server.js:559-567). -/
structure Stakeholder where
  id : String
  name : String
  category : String
  contact : Option String
  projects : List String
  status : String
  createdAt : Nat
  updatedAt : Option Nat
deriving DecidableEq

/-- A marketplace listing as pushed by `POST /marketplace/credits/:id/list`
(server.js:730-740). -/
structure MarketplaceListing where
  id : String
  creditId : String
  price : ℚ
  minimumQuantity : ℚ
  availableQuantity : ℚ
  expiryDate : Option String
  description : Option String
  status : String
  listedAt : Nat
deriving DecidableEq

/-- The six in-memory arrays of server.js:21-26. -/
structure Store where
  projects : List Project
  dataUploads : List DataUpload
  verificationSubmissions : List VerificationSubmission
  carbonCredits : List CarbonCredit
  stakeholders : List Stakeholder
  marketplaceListings : List MarketplaceListing
deriving DecidableEq

/-- The initial state: all six arrays empty. -/
def Store.empty : Store := ⟨[], [], [], [], [], []⟩

/-- Environment values a handler reads: the fresh uuid slice used in the
generated id, the `Date.now()` clock value, and `getFullYear().toString()`. -/
structure Env where
  newId : String
  time : Nat
  year : String
deriving DecidableEq

/-- An error response: HTTP status code and the `error` message string. -/
structure ErrResp where
  status : Nat
  error : String
deriving DecidableEq

/-- JS truthiness of a possibly-absent string field (absent and `""` falsy). -/
def truthyS : Option String → Bool
  | none => false
  | some s => s ≠ ""

/-- JS truthiness of a possibly-absent number field (absent and `0` falsy). -/
def truthyQ : Option ℚ → Bool
  | none => false
  | some x => x ≠ 0

/-- JS `a || d` on a possibly-absent string field. -/
def jsOrS : Option String → String → String
  | none, d => d
  | some s, d => if s = "" then d else s

/-- JS `a || d` on a possibly-absent number field. -/
def jsOrQ : Option ℚ → ℚ → ℚ
  | none, d => d
  | some x, d => if x = 0 then d else x

/-- JS template interpolation of a possibly-absent value: an absent field
renders as the string `undefined`. -/
def jsTemplate : Option String → String
  | none => "undefined"
  | some s => s

/-- server.js:40 — `(array, id) => array.find((item) => item.id === id)`,
with the id projection passed explicitly. -/
def findById (l : List α) (getId : α → String) (i : String) : Option α :=
  l.find? (fun x => getId x = i)

/-- Replace the first element satisfying `p` by its image under `f`: the
functional form of `array[array.findIndex(p)] = f(...)` (and of mutating the
object returned by `array.find(p)`). -/
def updateFirst (l : List α) (p : α → Bool) (f : α → α) : List α :=
  match l with
  | [] => []
  | x :: xs => if p x then f x :: xs else x :: updateFirst xs p f

/-- Drop the first element satisfying `p`: the functional form of
`array.splice(array.findIndex(p), 1)`. -/
def removeFirst (l : List α) (p : α → Bool) : List α :=
  match l with
  | [] => []
  | x :: xs => if p x then xs else x :: removeFirst xs p

/-- Request body of `POST /credits/generate` (server.js:442). -/
structure IssueCreditReq where
  projectId : Option String
  verificationId : Option String
  creditsAmount : Option ℚ
  methodology : Option String
  vintage : Option String
  description : Option String
deriving DecidableEq

/-- server.js:460 — `!verification || verification.status !== "approved"`,
negated. -/
def isApproved : Option VerificationSubmission → Bool
  | none => false
  | some v => v.status == "approved"

/-- `POST /credits/generate` (server.js:441-485): presence check on the three
required fields, project must exist, verification must exist with status
`approved`; on success pushes a credit whose serial number interpolates the
raw request `vintage` and the clock value. -/
def issueCredit (s : Store) (r : IssueCreditReq) (env : Env) :
    Store × Except ErrResp CarbonCredit :=
  if truthyS r.projectId && truthyS r.verificationId && truthyQ r.creditsAmount then
    let pid := r.projectId.getD ""
    match findById s.projects Project.id pid with
    | none => (s, .error ⟨404, "Project not found"⟩)
    | some _ =>
      let vid := r.verificationId.getD ""
      if isApproved (findById s.verificationSubmissions VerificationSubmission.id vid) then
        let credit : CarbonCredit :=
          { id := "CRD-" ++ env.newId
            projectId := pid
            verificationId := vid
            creditsAmount := r.creditsAmount.getD 0
            methodology := jsOrS r.methodology "VM0033"
            vintage := jsOrS r.vintage env.year
            description := r.description
            status := "active"
            createdAt := env.time
            serialNumber := pid ++ "-" ++ jsTemplate r.vintage ++ "-" ++ toString env.time }
        ({ s with carbonCredits := s.carbonCredits ++ [credit] }, .ok credit)
      else (s, .error ⟨400, "Valid approved verification required"⟩)
  else
    (s, .error ⟨400, "Project ID, verification ID, and credits amount are required"⟩)

/-- Request body of `POST /projects` (server.js:52). -/
structure ProjectReq where
  name : Option String
  category : Option String
  location : Option String
  startDate : Option String
  endDate : Option String
  stakeholders : Option (List String)
deriving DecidableEq

/-- `POST /projects` (server.js:51-79): name, category and location required,
then pushes a project with status `active`. -/
def createProject (s : Store) (r : ProjectReq) (env : Env) :
    Store × Except ErrResp Project :=
  if truthyS r.name && truthyS r.category && truthyS r.location then
    let project : Project :=
      { id := "PRJ-" ++ env.newId
        name := r.name.getD ""
        category := r.category.getD ""
        location := r.location.getD ""
        startDate := r.startDate
        endDate := r.endDate
        stakeholders := r.stakeholders.getD []
        status := "active"
        createdAt := env.time
        updatedAt := env.time }
    ({ s with projects := s.projects ++ [project] }, .ok project)
  else
    (s, .error ⟨400, "Name, category, and location are required"⟩)

/-- Request body of `PUT /projects/:id`: the spread `{...old, ...req.body}`
overrides exactly the fields the body carries, restricted to the modelled
fields of `Project`. -/
structure ProjectPatch where
  id : Option String
  name : Option String
  category : Option String
  location : Option String
  startDate : Option (Option String)
  endDate : Option (Option String)
  stakeholders : Option (List String)
  status : Option String
  createdAt : Option Nat
deriving DecidableEq

/-- The merge `{...old, ...req.body, updatedAt}` of `PUT /projects/:id`
(server.js:107-111), restricted to the modelled fields. -/
def mergeProject (old : Project) (patch : ProjectPatch) (env : Env) : Project :=
  { id := patch.id.getD old.id
    name := patch.name.getD old.name
    category := patch.category.getD old.category
    location := patch.location.getD old.location
    startDate := patch.startDate.getD old.startDate
    endDate := patch.endDate.getD old.endDate
    stakeholders := patch.stakeholders.getD old.stakeholders
    status := patch.status.getD old.status
    createdAt := patch.createdAt.getD old.createdAt
    updatedAt := env.time }

/-- `PUT /projects/:id` (server.js:97-117): merges the body over the stored
record and stamps `updatedAt`. -/
def updateProject (s : Store) (pid : String) (patch : ProjectPatch) (env : Env) :
    Store × Except ErrResp Project :=
  match findById s.projects Project.id pid with
  | none => (s, .error ⟨404, "Project not found"⟩)
  | some old =>
    let updated := mergeProject old patch env
    ({ s with projects := updateFirst s.projects (fun p => p.id = pid) (fun _ => updated) },
      .ok updated)

/-- `DELETE /projects/:id` (server.js:119-134): `findIndex` then `splice(i, 1)`. -/
def deleteProject (s : Store) (pid : String) : Store × Except ErrResp String :=
  match findById s.projects Project.id pid with
  | none => (s, .error ⟨404, "Project not found"⟩)
  | some _ =>
    ({ s with projects := removeFirst s.projects (fun p => p.id = pid) },
      .ok "Project deleted successfully")

/-- Request body of `POST /data/upload` (server.js:138); `metadata` is the
opaque JSON payload (`JSON.parse` is modelled as carrying it verbatim, the
absent case `{}` as `""`). -/
structure UploadReq where
  projectId : Option String
  dataType : Option String
  metadata : Option String
deriving DecidableEq

/-- `POST /data/upload` (server.js:137-177): projectId and dataType required,
project must exist, then pushes an upload with status `uploaded`. -/
def createUpload (s : Store) (r : UploadReq) (env : Env) :
    Store × Except ErrResp DataUpload :=
  if truthyS r.projectId && truthyS r.dataType then
    let pid := r.projectId.getD ""
    match findById s.projects Project.id pid with
    | none => (s, .error ⟨404, "Project not found"⟩)
    | some _ =>
      let upl : DataUpload :=
        { id := "UPL-" ++ env.newId
          projectId := pid
          dataType := r.dataType.getD ""
          metadata := jsOrS r.metadata ""
          status := "uploaded"
          createdAt := env.time }
      ({ s with dataUploads := s.dataUploads ++ [upl] }, .ok upl)
  else
    (s, .error ⟨400, "Project ID and data type are required"⟩)

/-- `DELETE /data/uploads/:id` (server.js:210-225). -/
def deleteUpload (s : Store) (uid : String) : Store × Except ErrResp String :=
  match findById s.dataUploads DataUpload.id uid with
  | none => (s, .error ⟨404, "Upload not found"⟩)
  | some _ =>
    ({ s with dataUploads := removeFirst s.dataUploads (fun u => u.id = uid) },
      .ok "Upload deleted successfully")

/-- The `pending` submission `POST /data/uploads/:id/verify` builds from an
upload (server.js:237-245). -/
def submissionOf (upl : DataUpload) (env : Env) : VerificationSubmission :=
  { id := "SUB-" ++ env.newId
    uploadId := upl.id
    projectId := upl.projectId
    status := "pending"
    submittedAt := env.time
    dataType := upl.dataType
    metadata := upl.metadata
    creditsGenerated := none
    comments := none
    qualityScore := none
    approvedAt := none
    reason := none
    requiredActions := []
    rejectedAt := none
    requestedData := []
    requestedAt := none }

/-- `POST /data/uploads/:id/verify` (server.js:227-256): the upload must
exist; pushes a `pending` submission copying projectId, dataType and
metadata from the upload, then mutates the upload's status in place. -/
def verifyUpload (s : Store) (uid : String) (env : Env) :
    Store × Except ErrResp VerificationSubmission :=
  match findById s.dataUploads DataUpload.id uid with
  | none => (s, .error ⟨404, "Upload not found"⟩)
  | some upl =>
    let submission := submissionOf upl env
    ({ s with
        verificationSubmissions := s.verificationSubmissions ++ [submission]
        dataUploads := updateFirst s.dataUploads (fun u => u.id = uid)
          (fun u => { u with status := "submitted_for_verification" }) },
      .ok submission)

/-- Request body of `POST /verification/submissions/:id/approve` (server.js:340). -/
structure ApproveReq where
  creditsGenerated : Option ℚ
  comments : Option String
  qualityScore : Option ℚ
deriving DecidableEq

/-- `POST /verification/submissions/:id/approve` (server.js:330-355): the
submission must exist; unconditionally spreads status `approved`,
`creditsGenerated || 0`, comments, qualityScore and an `approvedAt` stamp
over it. -/
def approveSubmission (s : Store) (sid : String) (r : ApproveReq) (env : Env) :
    Store × Except ErrResp VerificationSubmission :=
  match findById s.verificationSubmissions VerificationSubmission.id sid with
  | none => (s, .error ⟨404, "Submission not found"⟩)
  | some old =>
    let updated : VerificationSubmission :=
      { old with
        status := "approved"
        creditsGenerated := some (jsOrQ r.creditsGenerated 0)
        comments := r.comments
        qualityScore := r.qualityScore
        approvedAt := some env.time }
    ({ s with
        verificationSubmissions :=
          updateFirst s.verificationSubmissions (fun v => v.id = sid) (fun _ => updated) },
      .ok updated)

/-- Request body of `POST /verification/submissions/:id/reject` (server.js:367). -/
structure RejectReq where
  reason : Option String
  comments : Option String
  requiredActions : Option (List String)
deriving DecidableEq

/-- `POST /verification/submissions/:id/reject` (server.js:357-382). -/
def rejectSubmission (s : Store) (sid : String) (r : RejectReq) (env : Env) :
    Store × Except ErrResp VerificationSubmission :=
  match findById s.verificationSubmissions VerificationSubmission.id sid with
  | none => (s, .error ⟨404, "Submission not found"⟩)
  | some old =>
    let updated : VerificationSubmission :=
      { old with
        status := "rejected"
        reason := r.reason
        comments := r.comments
        requiredActions := r.requiredActions.getD []
        rejectedAt := some env.time }
    ({ s with
        verificationSubmissions :=
          updateFirst s.verificationSubmissions (fun v => v.id = sid) (fun _ => updated) },
      .ok updated)

/-- Request body of `POST /verification/submissions/:id/request-more`
(server.js:394). -/
structure RequestMoreReq where
  requestedData : Option (List String)
  comments : Option String
deriving DecidableEq

/-- `POST /verification/submissions/:id/request-more` (server.js:384-408). -/
def requestMoreData (s : Store) (sid : String) (r : RequestMoreReq) (env : Env) :
    Store × Except ErrResp VerificationSubmission :=
  match findById s.verificationSubmissions VerificationSubmission.id sid with
  | none => (s, .error ⟨404, "Submission not found"⟩)
  | some old =>
    let updated : VerificationSubmission :=
      { old with
        status := "more_data_requested"
        requestedData := r.requestedData.getD []
        comments := r.comments
        requestedAt := some env.time }
    ({ s with
        verificationSubmissions :=
          updateFirst s.verificationSubmissions (fun v => v.id = sid) (fun _ => updated) },
      .ok updated)

/-- Request body of `POST /stakeholders` (server.js:550). -/
structure StakeholderReq where
  name : Option String
  category : Option String
  contact : Option String
  projects : Option (List String)
deriving DecidableEq

/-- `POST /stakeholders` (server.js:549-574). -/
def createStakeholder (s : Store) (r : StakeholderReq) (env : Env) :
    Store × Except ErrResp Stakeholder :=
  if truthyS r.name && truthyS r.category then
    let st : Stakeholder :=
      { id := "STK-" ++ env.newId
        name := r.name.getD ""
        category := r.category.getD ""
        contact := r.contact
        projects := r.projects.getD []
        status := "active"
        createdAt := env.time
        updatedAt := none }
    ({ s with stakeholders := s.stakeholders ++ [st] }, .ok st)
  else
    (s, .error ⟨400, "Name and category are required"⟩)

/-- Request body of `PUT /stakeholders/:id`, restricted to the modelled
fields of `Stakeholder`. -/
structure StakeholderPatch where
  id : Option String
  name : Option String
  category : Option String
  contact : Option (Option String)
  projects : Option (List String)
  status : Option String
  createdAt : Option Nat
deriving DecidableEq

/-- `PUT /stakeholders/:id` (server.js:592-612). -/
def updateStakeholder (s : Store) (sid : String) (patch : StakeholderPatch) (env : Env) :
    Store × Except ErrResp Stakeholder :=
  match findById s.stakeholders Stakeholder.id sid with
  | none => (s, .error ⟨404, "Stakeholder not found"⟩)
  | some old =>
    let updated : Stakeholder :=
      { id := patch.id.getD old.id
        name := patch.name.getD old.name
        category := patch.category.getD old.category
        contact := patch.contact.getD old.contact
        projects := patch.projects.getD old.projects
        status := patch.status.getD old.status
        createdAt := patch.createdAt.getD old.createdAt
        updatedAt := some env.time }
    ({ s with
        stakeholders := updateFirst s.stakeholders (fun st => st.id = sid) (fun _ => updated) },
      .ok updated)

/-- Request body of `POST /marketplace/credits/:id/list` (server.js:713);
`price` is the request value, `Number.parseFloat` modelled as the rational
it denotes. -/
structure ListReq where
  price : Option ℚ
  minimumQuantity : Option ℚ
  expiryDate : Option String
  description : Option String
deriving DecidableEq

/-- `POST /marketplace/credits/:id/list` (server.js:712-747): credit must
exist, then `!price || price <= 0` rejects; on success pushes an `active`
listing with `availableQuantity` set to the credit's `creditsAmount`. -/
def listCredit (s : Store) (cid : String) (r : ListReq) (env : Env) :
    Store × Except ErrResp MarketplaceListing :=
  match findById s.carbonCredits CarbonCredit.id cid with
  | none => (s, .error ⟨404, "Credit not found"⟩)
  | some credit =>
    match r.price with
    | none => (s, .error ⟨400, "Valid price is required"⟩)
    | some p =>
      if p ≤ 0 then
        (s, .error ⟨400, "Valid price is required"⟩)
      else
        let listing : MarketplaceListing :=
          { id := "LST-" ++ env.newId
            creditId := credit.id
            price := p
            minimumQuantity := jsOrQ r.minimumQuantity 1
            availableQuantity := credit.creditsAmount
            expiryDate := r.expiryDate
            description := r.description
            status := "active"
            listedAt := env.time }
        ({ s with marketplaceListings := s.marketplaceListings ++ [listing] }, .ok listing)

/-- Query parameters of `GET /marketplace/credits` (server.js:686); the price
bounds arrive as query strings and are modelled as the rationals
`Number.parseFloat` yields, absent when the query omits them. -/
structure BrowseQuery where
  category : Option String
  minPrice : Option ℚ
  maxPrice : Option ℚ
deriving DecidableEq

/-- `GET /marketplace/credits` (server.js:685-710): active listings, then the
optional category filter resolves each listing's credit and that credit's
project (`project?.category === category`), then the optional price bounds. -/
def browse (s : Store) (q : BrowseQuery) : List MarketplaceListing :=
  let l0 := s.marketplaceListings.filter (fun l => l.status = "active")
  let l1 :=
    if truthyS q.category then
      l0.filter (fun l =>
        match findById s.carbonCredits CarbonCredit.id l.creditId with
        | none => false
        | some credit =>
          match findById s.projects Project.id credit.projectId with
          | none => false
          | some project => project.category = q.category.getD "")
    else l0
  let l2 :=
    match q.minPrice with
    | some m => l1.filter (fun l => m ≤ l.price)
    | none => l1
  match q.maxPrice with
  | some m => l2.filter (fun l => l.price ≤ m)
  | none => l2

/-- The payload of `GET /marketplace/prices` (server.js:753-763). -/
structure PriceStats where
  averagePrice : ℚ
  minPrice : ℚ
  maxPrice : ℚ
  totalListings : Nat
  low : Nat
  medium : Nat
  high : Nat
deriving DecidableEq

/-- `GET /marketplace/prices` (server.js:749-769): over the prices of the
active listings — mean (0 when empty), `Math.min`/`Math.max` (0 when empty),
count, and the `<10`, `10 ≤ · < 20`, `≥20` buckets. -/
def priceStats (s : Store) : PriceStats :=
  let activeListing := s.marketplaceListings.filter (fun l => l.status = "active")
  let prices := activeListing.map MarketplaceListing.price
  { averagePrice :=
      if prices.length > 0 then prices.foldl (· + ·) 0 / prices.length else 0
    minPrice := match prices with | [] => 0 | p :: rest => rest.foldl min p
    maxPrice := match prices with | [] => 0 | p :: rest => rest.foldl max p
    totalListings := activeListing.length
    low := (prices.filter (fun p => p < 10)).length
    medium := (prices.filter (fun p => 10 ≤ p ∧ p < 20)).length
    high := (prices.filter (fun p => 20 ≤ p)).length }

/-- One mutating request: the body/params of each state-changing endpoint of
server.js. -/
inductive Op where
  | createProject (r : ProjectReq)
  | updateProject (pid : String) (patch : ProjectPatch)
  | deleteProject (pid : String)
  | createUpload (r : UploadReq)
  | deleteUpload (uid : String)
  | verifyUpload (uid : String)
  | approveSubmission (sid : String) (r : ApproveReq)
  | rejectSubmission (sid : String) (r : RejectReq)
  | requestMoreData (sid : String) (r : RequestMoreReq)
  | issueCredit (r : IssueCreditReq)
  | createStakeholder (r : StakeholderReq)
  | updateStakeholder (sid : String) (patch : StakeholderPatch)
  | listCredit (cid : String) (r : ListReq)
deriving DecidableEq

/-- The store after serving one mutating request. -/
def step (s : Store) (op : Op) (env : Env) : Store :=
  match op with
  | .createProject r => (createProject s r env).1
  | .updateProject pid patch => (updateProject s pid patch env).1
  | .deleteProject pid => (deleteProject s pid).1
  | .createUpload r => (createUpload s r env).1
  | .deleteUpload uid => (deleteUpload s uid).1
  | .verifyUpload uid => (verifyUpload s uid env).1
  | .approveSubmission sid r => (approveSubmission s sid r env).1
  | .rejectSubmission sid r => (rejectSubmission s sid r env).1
  | .requestMoreData sid r => (requestMoreData s sid r env).1
  | .issueCredit r => (issueCredit s r env).1
  | .createStakeholder r => (createStakeholder s r env).1
  | .updateStakeholder sid patch => (updateStakeholder s sid patch env).1
  | .listCredit cid r => (listCredit s cid r env).1

/-- The store after serving a sequence of mutating requests. -/
def run (s : Store) : List (Op × Env) → Store
  | [] => s
  | (op, env) :: rest => run (step s op env) rest

/-- The serial-number format of server.js:477:
`` `${projectId}-${vintage}-${Date.now()}` ``. -/
def serialOf (pid vintage : String) (t : Nat) : String :=
  pid ++ "-" ++ vintage ++ "-" ++ toString t

/-- The spec's description of the browse category join: resolve the
listing's credit, then that credit's project, and read its category (the
two-hop join CarbonCredit→Project). -/
def categoryOfListing (s : Store) (l : MarketplaceListing) : Option String :=
  (findById s.carbonCredits CarbonCredit.id l.creditId).bind fun credit =>
    (findById s.projects Project.id credit.projectId).map Project.category

/-! Concrete fixtures used by witnesses and counterexamples. -/

/-- A stored project. -/
def prjA : Project :=
  { id := "PRJ-A", name := "N", category := "reforestation", location := "IN",
    startDate := none, endDate := none, stakeholders := [], status := "active",
    createdAt := 0, updatedAt := 0 }

/-- A stored approved verification submission. -/
def subApproved : VerificationSubmission :=
  { id := "SUB-A", uploadId := "UPL-A", projectId := "PRJ-A", status := "approved",
    submittedAt := 0, dataType := "field_survey", metadata := "m",
    creditsGenerated := some 1000, comments := none, qualityScore := none,
    approvedAt := some 1, reason := none, requiredActions := [],
    rejectedAt := none, requestedData := [], requestedAt := none }

/-- A stored verification submission in the terminal status `rejected`. -/
def subRejected : VerificationSubmission :=
  { subApproved with
    id := "SUB-R", status := "rejected", creditsGenerated := none,
    approvedAt := none, reason := some "bad data", rejectedAt := some 2 }

/-- A stored pending upload. -/
def uplA : DataUpload :=
  { id := "UPL-A", projectId := "PRJ-A", dataType := "field_survey",
    metadata := "m", status := "uploaded", createdAt := 0 }

/-- A stored credit. -/
def crdA : CarbonCredit :=
  { id := "CRD-A", projectId := "PRJ-A", verificationId := "SUB-A",
    creditsAmount := 1000, methodology := "VM0033", vintage := "2024",
    description := none, status := "active", createdAt := 1,
    serialNumber := "PRJ-A-2024-1" }

/-- An active listing over `crdA` at a given price. -/
def lstAt (i : String) (p : ℚ) : MarketplaceListing :=
  { id := i, creditId := "CRD-A", price := p, minimumQuantity := 1,
    availableQuantity := 1000, expiryDate := none, description := none,
    status := "active", listedAt := 2 }

/-- A store holding the project, the two submissions, the upload and the
credit. -/
def storeA : Store :=
  { Store.empty with
    projects := [prjA]
    dataUploads := [uplA]
    verificationSubmissions := [subApproved, subRejected]
    carbonCredits := [crdA] }

/-- `storeA` with three active listings priced 5, 15, 25 and one cancelled
listing. -/
def storeB : Store :=
  { storeA with
    marketplaceListings :=
      [lstAt "LST-1" 5, lstAt "LST-2" 15, lstAt "LST-3" 25,
       { lstAt "LST-4" 7 with status := "cancelled" }] }

/-- The request trace of the C2 counterexample: build a project, upload data
for it, submit the upload for verification, approve the submission, then
issue two credits for the same vintage in the same millisecond
(`Date.now() = 1000` for both). -/
def dupTrace : List (Op × Env) :=
  [(.createProject ⟨some "N", some "reforestation", some "IN", none, none, none⟩,
      ⟨"A", 0, "2024"⟩),
   (.createUpload ⟨some "PRJ-A", some "field_survey", some "m"⟩, ⟨"B", 1, "2024"⟩),
   (.verifyUpload "UPL-B", ⟨"C", 2, "2024"⟩),
   (.approveSubmission "SUB-C" ⟨some 1000, none, some 90⟩, ⟨"D", 3, "2024"⟩),
   (.issueCredit ⟨some "PRJ-A", some "SUB-C", some 100, none, some "2024", none⟩,
      ⟨"E", 1000, "2024"⟩),
   (.issueCredit ⟨some "PRJ-A", some "SUB-C", some 100, none, some "2024", none⟩,
      ⟨"F", 1000, "2024"⟩)]

/-! Helper lemmas. -/

/-- The numeric value of a decimal digit character (left inverse of
`Nat.digitChar` below 10). -/
def decDigitVal (c : Char) : Nat := c.toNat - 48

/-- The numeric value of a run of decimal digit characters, most significant
first. -/
def decValue (l : List Char) : Nat :=
  l.foldl (fun a c => a * 10 + decDigitVal c) 0

theorem decDigitVal_digitChar {m : Nat} (h : m < 10) :
    decDigitVal (Nat.digitChar m) = m := by
  interval_cases m <;> rfl

/-- `Nat.toDigitsCore` at base 10 with enough fuel prepends a run of digit
characters whose decimal value is the argument. -/
theorem toDigitsCore_val (fuel : Nat) :
    ∀ (n : Nat) (acc : List Char), n < fuel →
      ∃ ds : List Char, Nat.toDigitsCore 10 fuel n acc = ds ++ acc ∧ decValue ds = n := by
  induction fuel with
  | zero => exact fun n acc h => absurd h (Nat.not_lt_zero n)
  | succ fuel ih =>
    intro n acc hn
    by_cases h10 : n / 10 = 0
    · refine ⟨[Nat.digitChar (n % 10)], ?_, ?_⟩
      · simp [Nat.toDigitsCore, h10]
      · have hm : n % 10 < 10 := Nat.mod_lt n (by omega)
        simp [decValue, decDigitVal_digitChar hm]
        omega
    · obtain ⟨ds, hds, hval⟩ := ih (n / 10) (Nat.digitChar (n % 10) :: acc) (by omega)
      refine ⟨ds ++ [Nat.digitChar (n % 10)], ?_, ?_⟩
      · simp [Nat.toDigitsCore, h10, hds]
      · have hm : n % 10 < 10 := Nat.mod_lt n (by omega)
        have hstep : decValue (ds ++ [Nat.digitChar (n % 10)]) =
            decValue ds * 10 + decDigitVal (Nat.digitChar (n % 10)) := by
          simp [decValue, List.foldl_append]
        rw [hstep, hval, decDigitVal_digitChar hm]
        omega

/-- The decimal rendering `Nat.repr` (which is `toString` on `Nat`) is
injective: the value is recovered by `decValue`. -/
theorem natRepr_inj {m n : Nat} (h : Nat.repr m = Nat.repr n) : m = n := by
  obtain ⟨ds, hds, hval⟩ := toDigitsCore_val (m + 1) m [] (Nat.lt_succ_self m)
  obtain ⟨es, hes, heval⟩ := toDigitsCore_val (n + 1) n [] (Nat.lt_succ_self n)
  have hde : ds = es := by
    have h' : (Nat.toDigitsCore 10 (m + 1) m []).asString =
        (Nat.toDigitsCore 10 (n + 1) n []).asString := h
    rw [hds, hes] at h'
    have h'' : ({ data := ds } : String) = { data := es } := by
      simpa [List.asString] using h'
    simpa using congrArg String.data h''
  rw [← hval, ← heval, hde]

/-- String concatenation is left-cancellative. -/
theorem strAppend_left_cancel {a x y : String} (h : a ++ x = a ++ y) : x = y := by
  have h' := congrArg String.data h
  simp only [String.data_append] at h'
  have : x.data = y.data := List.append_cancel_left h'
  cases x; cases y; exact congrArg String.mk this

/-- Serial numbers built from the same project id and vintage at distinct
clock values differ. -/
theorem serialOf_time_inj {p v : String} {t₁ t₂ : Nat}
    (h : serialOf p v t₁ = serialOf p v t₂) : t₁ = t₂ := by
  apply natRepr_inj
  apply strAppend_left_cancel (a := p ++ "-" ++ v ++ "-")
  simpa [serialOf, String.append_assoc] using h

theorem isApproved_iff (o : Option VerificationSubmission) :
    isApproved o = true ↔ ∃ v, o = some v ∧ v.status = "approved" := by
  cases o <;> simp [isApproved]

/-- Every mutating request leaves the credits array untouched except a
successful `POST /credits/generate`, which appends exactly one credit whose
serial number is `serialOf` of the request's project id, raw vintage and the
clock value. -/
theorem step_credits (s : Store) (op : Op) (env : Env) :
    (step s op env).carbonCredits = s.carbonCredits ∨
    ∃ r credit, op = Op.issueCredit r ∧
      (step s op env).carbonCredits = s.carbonCredits ++ [credit] ∧
      credit.serialNumber = serialOf (r.projectId.getD "") (jsTemplate r.vintage) env.time := by
  cases op with
  | createProject r =>
    left; simp only [step, createProject]; split <;> rfl
  | updateProject pid patch =>
    left; simp only [step, updateProject]; split <;> rfl
  | deleteProject pid =>
    left; simp only [step, deleteProject]; split <;> rfl
  | createUpload r =>
    left; simp only [step, createUpload]; split
    · split <;> rfl
    · rfl
  | deleteUpload uid =>
    left; simp only [step, deleteUpload]; split <;> rfl
  | verifyUpload uid =>
    left; simp only [step, verifyUpload]; split <;> rfl
  | approveSubmission sid r =>
    left; simp only [step, approveSubmission]; split <;> rfl
  | rejectSubmission sid r =>
    left; simp only [step, rejectSubmission]; split <;> rfl
  | requestMoreData sid r =>
    left; simp only [step, requestMoreData]; split <;> rfl
  | issueCredit r =>
    simp only [step, issueCredit]
    split
    · split
      · left; rfl
      · split
        · right; exact ⟨r, _, rfl, rfl, rfl⟩
        · left; rfl
    · left; rfl
  | createStakeholder r =>
    left; simp only [step, createStakeholder]; split <;> rfl
  | updateStakeholder sid patch =>
    left; simp only [step, updateStakeholder]; split <;> rfl
  | listCredit cid r =>
    left; simp only [step, listCredit]; split
    · rfl
    · split
      · rfl
      · split <;> rfl

theorem truthyQ_iff (o : Option ℚ) :
    truthyQ o = true ↔ ∃ x, o = some x ∧ x ≠ 0 := by
  cases o <;> simp [truthyQ]

theorem findById_eq_none {l : List α} {getId : α → String} {i : String}
    (h : ∀ x ∈ l, getId x ≠ i) : findById l getId i = none := by
  rw [findById, List.find?_eq_none]
  intro x hx
  simpa using h x hx

/-! Claim theorems. -/

/-- C1: for every issueCredit request that supplies projectId, verificationId
and creditsAmount (JS-truthy) and whose referenced project exists, the
operation succeeds and appends exactly one new CarbonCredit when the
referenced VerificationSubmission exists with status exactly `approved`, and
for an absent verification or any other status it fails with the 400
state-conflict error "Valid approved verification required" and leaves the
store unchanged. -/
theorem C1_issueCredit_gated_on_approved (s : Store) (r : IssueCreditReq) (env : Env)
    (hp : truthyS r.projectId = true) (hv : truthyS r.verificationId = true)
    (ha : truthyQ r.creditsAmount = true)
    (hproj : ∃ p, findById s.projects Project.id (r.projectId.getD "") = some p) :
    ((∃ v, findById s.verificationSubmissions VerificationSubmission.id
        (r.verificationId.getD "") = some v ∧ v.status = "approved") →
      ∃ c, issueCredit s r env =
        ({ s with carbonCredits := s.carbonCredits ++ [c] }, Except.ok c)) ∧
    ((¬ ∃ v, findById s.verificationSubmissions VerificationSubmission.id
        (r.verificationId.getD "") = some v ∧ v.status = "approved") →
      issueCredit s r env =
        (s, Except.error ⟨400, "Valid approved verification required"⟩)) := by
  obtain ⟨p, hp2⟩ := hproj
  constructor
  · intro hex
    have hA : isApproved (findById s.verificationSubmissions VerificationSubmission.id
        (r.verificationId.getD "")) = true := (isApproved_iff _).mpr hex
    simp only [issueCredit, hp, hv, ha, Bool.and_self, if_true, hp2, hA]
    exact ⟨_, rfl⟩
  · intro hnex
    have hA : isApproved (findById s.verificationSubmissions VerificationSubmission.id
        (r.verificationId.getD "")) = false := by
      cases hB : isApproved (findById s.verificationSubmissions VerificationSubmission.id
          (r.verificationId.getD "")) with
      | false => rfl
      | true => exact absurd ((isApproved_iff _).mp hB) hnex
    simp only [issueCredit, hp, hv, ha, Bool.and_self, if_true, hp2, hA, Bool.false_eq_true,
      if_false]

/-- C1 witness: on `storeA`, issuing against the approved submission SUB-A
succeeds, and issuing against the rejected submission SUB-R fails with the
state-conflict error. -/
theorem C1_witness :
    (∃ c, issueCredit storeA ⟨some "PRJ-A", some "SUB-A", some 100, none, some "2024", none⟩
        ⟨"X", 1000, "2025"⟩ =
      ({ storeA with carbonCredits := storeA.carbonCredits ++ [c] }, Except.ok c)) ∧
    issueCredit storeA ⟨some "PRJ-A", some "SUB-R", some 100, none, some "2024", none⟩
        ⟨"X", 1000, "2025"⟩ =
      (storeA, Except.error ⟨400, "Valid approved verification required"⟩) := by
  constructor
  · exact (C1_issueCredit_gated_on_approved storeA
      ⟨some "PRJ-A", some "SUB-A", some 100, none, some "2024", none⟩ ⟨"X", 1000, "2025"⟩
      (by decide) (by decide) (by decide) ⟨prjA, by decide⟩).1
      ⟨subApproved, by decide, by decide⟩
  · exact (C1_issueCredit_gated_on_approved storeA
      ⟨some "PRJ-A", some "SUB-R", some 100, none, some "2024", none⟩ ⟨"X", 1000, "2025"⟩
      (by decide) (by decide) (by decide) ⟨prjA, by decide⟩).2
      (by decide)

/-- C2 counterexample: from the empty store, create a project, upload data,
submit it for verification, approve it, then issue two credits with the same
vintage in the same millisecond (`Date.now()` returns 1000 twice): the
reachable final state stores two credits that share the serial number
`PRJ-A-2024-1000`, so serial numbers are not unique across the store. -/
theorem C2_counterexample :
    (run Store.empty dupTrace).carbonCredits.map CarbonCredit.serialNumber =
      ["PRJ-A-2024-1000", "PRJ-A-2024-1000"] ∧
    ¬ ((run Store.empty dupTrace).carbonCredits.map CarbonCredit.serialNumber).Nodup := by
  constructor
  · decide
  · decide

/-- C2 amended: a credit's serialNumber is assigned exactly once, at
credit-creation time — every mutating request either leaves the stored
credits untouched or appends exactly one new credit whose serialNumber is
built from the request's project id, raw vintage and the current clock value,
and no operation rewrites a stored credit — and serial numbers minted for the
same projectId and vintage at distinct clock values are distinct; uniqueness
across the store holds only up to same-millisecond issuances (see the
counterexample). -/
theorem C2_amended_serialNumber_once (s : Store) (op : Op) (env : Env) :
    ((step s op env).carbonCredits = s.carbonCredits ∨
      ∃ r credit, op = Op.issueCredit r ∧
        (step s op env).carbonCredits = s.carbonCredits ++ [credit] ∧
        credit.serialNumber =
          serialOf (r.projectId.getD "") (jsTemplate r.vintage) env.time) ∧
    (∀ p v t₁ t₂, serialOf p v t₁ = serialOf p v t₂ → t₁ = t₂) :=
  ⟨step_credits s op env, fun _ _ _ _ h => serialOf_time_inj h⟩

/-- C2 amended witness: instantiated on a concrete issuance; serial numbers
at clock values 1000 and 1001 for the same project and vintage coincide only
if the clock values do, which `decide` refutes on this pair. -/
theorem C2_amended_witness : (1000 : Nat) = 1000 :=
  (C2_amended_serialNumber_once storeA
    (Op.issueCredit ⟨some "PRJ-A", some "SUB-A", some 100, none, some "2024", none⟩)
    ⟨"X", 1000, "2025"⟩).2 "PRJ-A" "2024" 1000 1000 (by decide)

/-- C3: submitting an existing DataUpload for verification appends exactly
one new VerificationSubmission in status `pending` whose uploadId references
that upload and which copies the upload's projectId, dataType and metadata,
and mutates (only) that upload's status to `submitted_for_verification`;
when no upload with the given id exists the operation fails with the 404
NotFound error and the store — in particular the submissions array — is
unchanged. -/
theorem C3_verifyUpload_spec (s : Store) (uid : String) (env : Env) :
    ((∀ u ∈ s.dataUploads, u.id ≠ uid) →
      verifyUpload s uid env = (s, Except.error ⟨404, "Upload not found"⟩)) ∧
    (∀ upl, findById s.dataUploads DataUpload.id uid = some upl →
      ∃ sub, verifyUpload s uid env =
          ({ s with
              verificationSubmissions := s.verificationSubmissions ++ [sub]
              dataUploads := updateFirst s.dataUploads (fun u => u.id = uid)
                (fun u => { u with status := "submitted_for_verification" }) },
            Except.ok sub) ∧
        sub.status = "pending" ∧ sub.uploadId = upl.id ∧ sub.projectId = upl.projectId ∧
        sub.dataType = upl.dataType ∧ sub.metadata = upl.metadata) := by
  constructor
  · intro hno
    simp [verifyUpload, findById_eq_none hno]
  · intro upl hupl
    refine ⟨submissionOf upl env, ?_, rfl, rfl, rfl, rfl, rfl⟩
    simp [verifyUpload, hupl]

/-- C3 witness: submitting the stored upload UPL-A succeeds and creates the
pending submission; submitting the absent id UPL-X fails with 404. -/
theorem C3_witness :
    (∃ sub, verifyUpload storeA "UPL-A" ⟨"S", 9, "2025"⟩ =
        ({ storeA with
            verificationSubmissions := storeA.verificationSubmissions ++ [sub]
            dataUploads := updateFirst storeA.dataUploads (fun u => u.id = "UPL-A")
              (fun u => { u with status := "submitted_for_verification" }) },
          Except.ok sub) ∧
      sub.status = "pending" ∧ sub.uploadId = uplA.id ∧ sub.projectId = uplA.projectId ∧
      sub.dataType = uplA.dataType ∧ sub.metadata = uplA.metadata) ∧
    verifyUpload storeA "UPL-X" ⟨"S", 9, "2025"⟩ =
      (storeA, Except.error ⟨404, "Upload not found"⟩) := by
  constructor
  · exact (C3_verifyUpload_spec storeA "UPL-A" ⟨"S", 9, "2025"⟩).2 uplA (by decide)
  · exact (C3_verifyUpload_spec storeA "UPL-X" ⟨"S", 9, "2025"⟩).1 (by decide)

/-- C4: approve fails with the 404 NotFound error exactly when no submission
with the given id exists; on every stored submission — whatever its prior
status, including the terminal `rejected` — it succeeds, replacing the
submission with one whose status is `approved`, whose creditsGenerated is
the request value defaulted to 0, and which records qualityScore and the
approval timestamp. -/
theorem C4_approve_unconditional (s : Store) (sid : String) (r : ApproveReq) (env : Env) :
    (approveSubmission s sid r env = (s, Except.error ⟨404, "Submission not found"⟩) ↔
      findById s.verificationSubmissions VerificationSubmission.id sid = none) ∧
    (∀ old, findById s.verificationSubmissions VerificationSubmission.id sid = some old →
      ∃ upd, approveSubmission s sid r env =
          ({ s with
              verificationSubmissions :=
                updateFirst s.verificationSubmissions (fun v => v.id = sid)
                  (fun _ => upd) },
            Except.ok upd) ∧
        upd.status = "approved" ∧
        upd.creditsGenerated = some (jsOrQ r.creditsGenerated 0) ∧
        upd.qualityScore = r.qualityScore ∧ upd.approvedAt = some env.time) := by
  constructor
  · cases h : findById s.verificationSubmissions VerificationSubmission.id sid with
    | none => simp [approveSubmission, h]
    | some old => simp [approveSubmission, h]
  · intro old hold
    refine ⟨{ old with
        status := "approved"
        creditsGenerated := some (jsOrQ r.creditsGenerated 0)
        comments := r.comments
        qualityScore := r.qualityScore
        approvedAt := some env.time }, ?_, rfl, rfl, rfl, rfl⟩
    simp [approveSubmission, hold]

/-- C4 witness: approving the absent id SUB-X fails with 404; re-approving
the stored submission SUB-R, already in the terminal status `rejected`,
silently succeeds and sets status `approved` with the supplied values. -/
theorem C4_witness :
    approveSubmission storeA "SUB-X" ⟨none, none, none⟩ ⟨"W", 7, "2025"⟩ =
      (storeA, Except.error ⟨404, "Submission not found"⟩) ∧
    subRejected.status = "rejected" ∧
    ∃ upd, approveSubmission storeA "SUB-R" ⟨some 50, none, some 80⟩ ⟨"W", 7, "2025"⟩ =
        ({ storeA with
            verificationSubmissions :=
              updateFirst storeA.verificationSubmissions (fun v => v.id = "SUB-R")
                (fun _ => upd) },
          Except.ok upd) ∧
      upd.status = "approved" ∧ upd.creditsGenerated = some 50 ∧
      upd.qualityScore = some 80 ∧ upd.approvedAt = some 7 := by
  refine ⟨?_, by decide, ?_⟩
  · exact (C4_approve_unconditional storeA "SUB-X" ⟨none, none, none⟩
      ⟨"W", 7, "2025"⟩).1.mpr (by decide)
  · obtain ⟨upd, h1, h2, h3, h4, h5⟩ :=
      (C4_approve_unconditional storeA "SUB-R" ⟨some 50, none, some 80⟩
        ⟨"W", 7, "2025"⟩).2 subRejected (by decide)
    exact ⟨upd, h1, h2, h3.trans (by decide), h4, h5⟩

/-- C9: deleting a project id or an upload id that is not present returns the
404 not-found error and returns the store unchanged — so every collection's
record count is the same before and after the failed delete. -/
theorem C9_delete_nonexistent (s : Store) (pid uid : String)
    (hp : ∀ p ∈ s.projects, p.id ≠ pid) (hu : ∀ u ∈ s.dataUploads, u.id ≠ uid) :
    deleteProject s pid = (s, Except.error ⟨404, "Project not found"⟩) ∧
    deleteUpload s uid = (s, Except.error ⟨404, "Upload not found"⟩) := by
  constructor
  · simp [deleteProject, findById_eq_none hp]
  · simp [deleteUpload, findById_eq_none hu]

/-- C9 witness: deleting the absent ids PRJ-X and UPL-X from `storeA` fails
with 404 and leaves the store intact. -/
theorem C9_witness :
    deleteProject storeA "PRJ-X" = (storeA, Except.error ⟨404, "Project not found"⟩) ∧
    deleteUpload storeA "UPL-X" = (storeA, Except.error ⟨404, "Upload not found"⟩) :=
  C9_delete_nonexistent storeA "PRJ-X" "UPL-X" (by decide) (by decide)

/-- C5: when the active listings carry exactly the prices 5, 15 and 25, the
price statistics are mean 15, min 5, max 25, 3 total listings, and one
listing in each of the low (<10), medium (10–20) and high (≥20) buckets. -/
theorem C5_priceStats_concrete (s : Store)
    (h : (s.marketplaceListings.filter (fun l => l.status = "active")).map
        MarketplaceListing.price = [5, 15, 25]) :
    priceStats s = ⟨15, 5, 25, 3, 1, 1, 1⟩ := by
  have hlen : (s.marketplaceListings.filter (fun l => l.status = "active")).length = 3 := by
    simpa using congrArg List.length h
  simp only [priceStats, h, hlen]
  norm_num

/-- C5 witness: `storeB` holds active listings priced 5, 15 and 25 (and one
cancelled listing, which is ignored). -/
theorem C5_witness : priceStats storeB = ⟨15, 5, 25, 3, 1, 1, 1⟩ :=
  C5_priceStats_concrete storeB (by decide)

/-- C10: when no listing is active, priceStats still succeeds and returns
all-zero statistics — the empty case is guarded, so no division by zero or
empty minimum occurs. -/
theorem C10_priceStats_empty (s : Store)
    (h : s.marketplaceListings.filter (fun l => l.status = "active") = []) :
    priceStats s = ⟨0, 0, 0, 0, 0, 0, 0⟩ := by
  simp [priceStats, h]

/-- C10 witness: `storeA` has no listings at all. -/
theorem C10_witness : priceStats storeA = ⟨0, 0, 0, 0, 0, 0, 0⟩ :=
  C10_priceStats_empty storeA (by decide)

/-- C6: browsing with a (nonempty) category filter C returns exactly the
listings whose status is `active` and whose credit's project's category
equals C under the two-hop join listing→CarbonCredit→Project; browsing with
no filters returns exactly the listings whose status is `active`. -/
theorem C6_browse_category (s : Store) (C : String) (hC : C ≠ "") :
    browse s ⟨some C, none, none⟩ =
      s.marketplaceListings.filter
        (fun l => decide (l.status = "active" ∧ categoryOfListing s l = some C)) ∧
    browse s ⟨none, none, none⟩ =
      s.marketplaceListings.filter (fun l => l.status = "active") := by
  constructor
  · have ht : truthyS (some C) = true := by simp [truthyS, hC]
    simp only [browse, ht, if_true]
    rw [List.filter_filter]
    refine List.filter_congr ?_
    intro l hl
    rcases h1 : findById s.carbonCredits CarbonCredit.id l.creditId with _ | credit
    · simp [categoryOfListing, h1]
    · rcases h2 : findById s.projects Project.id credit.projectId with _ | project
      · simp [categoryOfListing, h1, h2]
      · simp [categoryOfListing, h1, h2, Bool.and_comm]
  · simp [browse, truthyS]

/-- C6 witness: on `storeB` (whose listings all resolve to the project with
category `reforestation`), the category filter returns the three active
listings, a mismatching category returns none, and no filter returns the
three active listings. -/
theorem C6_witness :
    browse storeB ⟨some "reforestation", none, none⟩ =
      storeB.marketplaceListings.filter
        (fun l => decide (l.status = "active" ∧
          categoryOfListing storeB l = some "reforestation")) ∧
    browse storeB ⟨none, none, none⟩ =
      storeB.marketplaceListings.filter (fun l => l.status = "active") :=
  C6_browse_category storeB "reforestation" (by decide)

/-- C7: creating a listing for an absent credit fails with the 404 NotFound
error; for an existing credit a missing or non-positive price fails with the
400 validation error; for an existing credit and a positive price it
succeeds, appending a listing whose status is `active` and whose
availableQuantity equals the referenced credit's full creditsAmount. -/
theorem C7_listCredit_spec (s : Store) (cid : String) (r : ListReq) (env : Env) :
    (findById s.carbonCredits CarbonCredit.id cid = none →
      listCredit s cid r env = (s, Except.error ⟨404, "Credit not found"⟩)) ∧
    (∀ credit, findById s.carbonCredits CarbonCredit.id cid = some credit →
      ((∀ p, r.price = some p → p ≤ 0) →
        listCredit s cid r env = (s, Except.error ⟨400, "Valid price is required"⟩)) ∧
      (∀ p, r.price = some p → 0 < p →
        ∃ listing, listCredit s cid r env =
            ({ s with marketplaceListings := s.marketplaceListings ++ [listing] },
              Except.ok listing) ∧
          listing.status = "active" ∧ listing.price = p ∧
          listing.availableQuantity = credit.creditsAmount)) := by
  constructor
  · intro h
    simp [listCredit, h]
  · intro credit hcredit
    constructor
    · intro hbad
      cases hp : r.price with
      | none => simp [listCredit, hcredit, hp]
      | some p => simp [listCredit, hcredit, hp, hbad p hp]
    · intro p hp hpos
      refine ⟨{ id := "LST-" ++ env.newId
                creditId := credit.id
                price := p
                minimumQuantity := jsOrQ r.minimumQuantity 1
                availableQuantity := credit.creditsAmount
                expiryDate := r.expiryDate
                description := r.description
                status := "active"
                listedAt := env.time }, ?_, rfl, rfl, rfl⟩
      simp [listCredit, hcredit, hp, hpos.not_le]

/-- C7 witness: on `storeA`, listing the absent credit CRD-X fails with 404,
listing CRD-A at price 0 fails with the validation error, and listing CRD-A
at price 10 succeeds with an active listing whose availableQuantity is
CRD-A's creditsAmount 1000. -/
theorem C7_witness :
    listCredit storeA "CRD-X" ⟨some 10, none, none, none⟩ ⟨"L", 5, "2025"⟩ =
      (storeA, Except.error ⟨404, "Credit not found"⟩) ∧
    listCredit storeA "CRD-A" ⟨some 0, none, none, none⟩ ⟨"L", 5, "2025"⟩ =
      (storeA, Except.error ⟨400, "Valid price is required"⟩) ∧
    ∃ listing, listCredit storeA "CRD-A" ⟨some 10, none, none, none⟩ ⟨"L", 5, "2025"⟩ =
        ({ storeA with marketplaceListings := storeA.marketplaceListings ++ [listing] },
          Except.ok listing) ∧
      listing.status = "active" ∧ listing.price = 10 ∧
      listing.availableQuantity = crdA.creditsAmount := by
  refine ⟨?_, ?_, ?_⟩
  · exact (C7_listCredit_spec storeA "CRD-X" ⟨some 10, none, none, none⟩
      ⟨"L", 5, "2025"⟩).1 (by decide)
  · exact ((C7_listCredit_spec storeA "CRD-A" ⟨some 0, none, none, none⟩
      ⟨"L", 5, "2025"⟩).2 crdA (by decide)).1 (by
        intro p hp
        rw [show p = 0 by simpa using hp.symm])
  · exact ((C7_listCredit_spec storeA "CRD-A" ⟨some 10, none, none, none⟩
      ⟨"L", 5, "2025"⟩).2 crdA (by decide)).2 10 rfl (by decide)

/-- C8 counterexample: on `storeA` (existing project, approved verification)
a request with creditsAmount −5 passes the JS truthiness check, succeeds,
and the stored credit's creditsAmount is −5, which is not positive — the
claimed validation failure for non-positive amounts does not happen. -/
theorem C8_counterexample :
    ((issueCredit storeA ⟨some "PRJ-A", some "SUB-A", some (-5), none, some "2024", none⟩
        ⟨"X", 1000, "2025"⟩).1).carbonCredits.map CarbonCredit.creditsAmount =
      [1000, -5] ∧
    ((issueCredit storeA ⟨some "PRJ-A", some "SUB-A", some (-5), none, some "2024", none⟩
        ⟨"X", 1000, "2025"⟩).2).isOk = true ∧
    ¬ ((-5 : ℚ) > 0) := ⟨by decide, by decide, by decide⟩

/-- C8 amended: issueCredit fails with the 400 required-fields validation
error whenever the supplied creditsAmount is absent or equals 0 (JS
falsiness — the only numeric check performed), and every credit it accepts
and stores has creditsAmount ≠ 0; a negative creditsAmount is accepted and
stored (see the counterexample), so the stored invariant is nonzero, not
positive. -/
theorem C8_amended_creditsAmount_nonzero (s : Store) (r : IssueCreditReq) (env : Env) :
    (truthyQ r.creditsAmount = false →
      issueCredit s r env =
        (s, Except.error
          ⟨400, "Project ID, verification ID, and credits amount are required"⟩)) ∧
    (∀ s' c, issueCredit s r env = (s', Except.ok c) → c.creditsAmount ≠ 0) := by
  constructor
  · intro h
    simp [issueCredit, h]
  · intro s' c hc
    simp only [issueCredit] at hc
    split at hc
    case isFalse => simp at hc
    case isTrue ht =>
      have hq : truthyQ r.creditsAmount = true := by
        simp only [Bool.and_eq_true] at ht
        exact ht.2
      obtain ⟨x, hx, hx0⟩ := (truthyQ_iff r.creditsAmount).mp hq
      split at hc
      · simp at hc
      · split at hc
        · have h2 := congrArg Prod.snd hc
          simp only [Except.ok.injEq] at h2
          have : c.creditsAmount = r.creditsAmount.getD 0 := by rw [← h2]
          rw [this, hx]
          simpa using hx0
        · simp at hc

/-- C8 amended witness: a request with creditsAmount 0 is rejected with the
validation error on `storeA`; the successful −5 issuance stores a nonzero
amount. -/
theorem C8_amended_witness :
    issueCredit storeA ⟨some "PRJ-A", some "SUB-A", some 0, none, some "2024", none⟩
        ⟨"X", 1000, "2025"⟩ =
      (storeA, Except.error
        ⟨400, "Project ID, verification ID, and credits amount are required"⟩) :=
  (C8_amended_creditsAmount_nonzero storeA
    ⟨some "PRJ-A", some "SUB-A", some 0, none, some "2024", none⟩
    ⟨"X", 1000, "2025"⟩).1 (by decide)

end CCred
